import Mathlib

/-!
Shallow embedding of the FeatherTrace fault tracer
(`src/FeatherTrace.cpp`, `src/FeatherTrace.h`).

Machine integers are modelled as `Nat` (with an explicit `% 2^32` where the
source's `uint32_t` arithmetic can overflow, namely the failure counter) and
C `int` values as `Int`.  The platform unwinder (`__gnu_Unwind_Backtrace`,
`_Unwind_Backtrace` from libgcc) is external to the repository: it is
modelled as an arbitrary finite list of frames that it feeds, one by one, to
the repository's callback `trace_func`, which is embedded faithfully.
Hardware registers (NVM controller, WDT, SCB) are modelled by explicit state
fields and by parameters carrying the values the code reads from them.
-/

/-- Fixed stack-trace capacity, `#define MAX_STRACE 32`. -/
def MAX_STRACE : Nat := 32

/-- Enum `FeatherTrace::FaultCause` value `FAULT_NONE`. -/
def FAULT_NONE : Nat := 0
/-- Enum `FeatherTrace::FaultCause` value `FAULT_UNKNOWN`. -/
def FAULT_UNKNOWN : Nat := 1
/-- Enum `FeatherTrace::FaultCause` value `FAULT_HUNG`. -/
def FAULT_HUNG : Nat := 2
/-- Enum `FeatherTrace::FaultCause` value `FAULT_HARDFAULT`. -/
def FAULT_HARDFAULT : Nat := 3
/-- Enum `FeatherTrace::FaultCause` value `FAULT_OUTOFMEMORY`. -/
def FAULT_OUTOFMEMORY : Nat := 4
/-- Enum `FeatherTrace::FaultCause` value `FAULT_USER`. -/
def FAULT_USER : Nat := 5

/-- Enum `SCBFaultType` value `SCB_NONE` (no active exception). -/
def SCB_NONE : Nat := 0
/-- Enum `SCBFaultType` value `SCB_HARDFAULT` (hard-fault vector). -/
def SCB_HARDFAULT : Nat := 3
/-- Enum `SCBFaultType` value `SCB_WDTEW` (watchdog early-warning interrupt). -/
def SCB_WDTEW : Nat := 18

/-- One step of the external libgcc unwinder, as observed by the callback
`trace_func`: the instruction pointer `_Unwind_GetIP(context)`, the value
`_Unwind_GetGR(context, 14)`, and whether `_Unwind_GetRegionStart(context)+1`
equals `main` (the guard at the end of `trace_func`). -/
structure Frame where
  ip : Nat
  gr14 : Nat
  region_is_main : Bool
deriving DecidableEq

/-- Embedding of the C struct `trace_arg_t`. -/
structure TraceArg where
  last_ip : Nat
  strace_len : Nat
  sdid_max_len : Bool
  stacktrace : List Nat
deriving DecidableEq

/-- Zero-initialised `trace_arg_t arg = {};`. -/
def initArg : TraceArg :=
  { last_ip := 0, strace_len := 0, sdid_max_len := false,
    stacktrace := List.replicate MAX_STRACE 0 }

/-- The `_Unwind_Reason_Code` values returned by `trace_func`. -/
inductive UnwindReason
  | no_reason
  | end_of_stack
deriving DecidableEq

/-- Embedding of the callback `trace_func` (FeatherTrace.cpp lines 136-178).
The body of the `strace_len == 0` branch is entirely commented out in the
source, so that branch falls through to the capacity check and the append.
In the repeated-ip branch with `strace_len == 1` the source calls
`_Unwind_SetGR(context, 14, saved_lr)` and lets the external unwinder carry
on; in this model the subsequent frames (an arbitrary list) absorb that
effect. -/
def trace_func (saved_lr : Nat) (f : Frame) (a : TraceArg) : TraceArg × UnwindReason :=
  if a.strace_len ≠ 0 ∧ a.last_ip = f.ip then
    if a.strace_len = 1 ∧ saved_lr ≠ 0 ∧ saved_lr ≠ f.gr14 then
      (a, .no_reason)
    else
      (a, .end_of_stack)
  else if MAX_STRACE - 1 ≤ a.strace_len then
    ({ a with sdid_max_len := true }, .end_of_stack)
  else
    let a' := { a with stacktrace := a.stacktrace.set a.strace_len f.ip,
                       strace_len := a.strace_len + 1,
                       last_ip := f.ip }
    if f.region_is_main then (a', .end_of_stack) else (a', .no_reason)

/-- The external backtrace driver (`__gnu_Unwind_Backtrace` /
`_Unwind_Backtrace`): it feeds frames to `trace_func` until the callback
answers `_URC_END_OF_STACK` or the unwinder itself runs out of frames. -/
def runBacktrace (saved_lr : Nat) : List Frame → TraceArg → TraceArg
  | [], a => a
  | f :: fs, a =>
    match trace_func saved_lr f a with
    | (a', .end_of_stack) => a'
    | (a', .no_reason) => runBacktrace saved_lr fs a'

/-- First fallback in `take_isr_cpu_trace` (lines 193-197): if the backtrace
recorded nothing, record the raw program counter as a one-entry trace. -/
def isrFallbackPC (pc : Nat) (a : TraceArg) : TraceArg :=
  if a.strace_len = 0 then
    { a with stacktrace := a.stacktrace.set 0 pc, strace_len := a.strace_len + 1 }
  else a

/-- Retry in `take_isr_cpu_trace` (lines 198-205): if exactly one entry was
recorded, point the context's r14/r15 at the harvested link register, clear
`last_ip` and unwind again.  The frames produced by the unwinder for that
second context are the parameter `f2`. -/
def isrRetryLR (saved_lr : Nat) (f2 : List Frame) (a : TraceArg) : TraceArg :=
  if a.strace_len = 1 then runBacktrace saved_lr f2 { a with last_ip := 0 } else a

/-- Second fallback in `take_isr_cpu_trace` (lines 206-210): if the trace
still has exactly one entry, append the harvested link register. -/
def isrFallbackLR (saved_lr : Nat) (a : TraceArg) : TraceArg :=
  if a.strace_len = 1 then
    { a with stacktrace := a.stacktrace.set 1 saved_lr, strace_len := a.strace_len + 1 }
  else a

/-- Embedding of `take_isr_cpu_trace` (lines 183-211): a first unwind pass
over a copy of the saved context, then the program-counter fallback, the
link-register retry, and the link-register fallback, in source order.
`pc` is `p_main_context.core.r[15]` at entry. -/
def take_isr_cpu_trace (saved_lr pc : Nat) (f1 f2 : List Frame) (a : TraceArg) : TraceArg :=
  isrFallbackLR saved_lr (isrRetryLR saved_lr f2 (isrFallbackPC pc (runBacktrace saved_lr f1 a)))

/-- Packing of a byte sequence into little-endian 32-bit words, as the C
compiler lays `char` arrays out inside the word-aligned
`FaultDataFlashStruct`.  Only multiple-of-four lengths occur in the layout. -/
def packBytes : List Nat → List Nat
  | b0 :: b1 :: b2 :: b3 :: rest =>
      (b0 + 256 * b1 + 65536 * b2 + 16777216 * b3) :: packBytes rest
  | _ => []

/-- Two's-complement encoding of an `int32_t` into the 32-bit flash word. -/
def encodeInt32 (z : Int) : Nat := (z % 4294967296).toNat

/-- Two's-complement decoding of a 32-bit flash word as an `int32_t`. -/
def decodeInt32 (w : Nat) : Int :=
  if w < 2147483648 then (w : Int) else (w : Int) - 4294967296

/-- Marker `char marker[24] = "FeatherTrace Data Here:"` as raw bytes. -/
def markerWords : List Nat :=
  packBytes [70, 101, 97, 116, 104, 101, 114, 84, 114, 97, 99, 101, 32,
             68, 97, 116, 97, 32, 72, 101, 114, 101, 58, 0]

/-- Marker `char marker1[8] = "Caused:"` as raw bytes. -/
def marker1Words : List Nat := packBytes [67, 97, 117, 115, 101, 100, 58, 0]

/-- Marker `char marker2[8] = "I type:"` as raw bytes. -/
def marker2Words : List Nat := packBytes [73, 32, 116, 121, 112, 101, 58, 0]

/-- Marker `char marker3[8] = "Traced:"` as raw bytes. -/
def marker3Words : List Nat := packBytes [84, 114, 97, 99, 101, 100, 58, 0]

/-- Marker `char marker4[8] = "Regdmp:"` as raw bytes. -/
def marker4Words : List Nat := packBytes [82, 101, 103, 100, 109, 112, 58, 0]

/-- Marker `char marker5[8] = "My Bad:"` as raw bytes. -/
def marker5Words : List Nat := packBytes [77, 121, 32, 66, 97, 100, 58, 0]

/-- Marker `char marker6[8] = "Fail #:"` as raw bytes. -/
def marker6Words : List Nat := packBytes [70, 97, 105, 108, 32, 35, 58, 0]

/-- Marker `char marker7[8] = "Line #:"` as raw bytes. -/
def marker7Words : List Nat := packBytes [76, 105, 110, 101, 32, 35, 58, 0]

/-- Marker `char marker8[8] = "File n:"` as raw bytes. -/
def marker8Words : List Nat := packBytes [70, 105, 108, 101, 32, 110, 58, 0]

/-- Marker `char marker9[4] = "End"` as raw bytes. -/
def marker9Words : List Nat := packBytes [69, 110, 100, 0]

/-- The meaningful fields of `FaultDataFlashStruct` (the markers, the
`value_head` word and the `version` word are fixed constants supplied by the
serialiser). -/
structure FaultRecord where
  cause : Nat
  interrupt_type : Nat
  stacktrace : List Nat
  regs : List Nat
  xpsr : Nat
  is_corrupted : Nat
  failnum : Nat
  line : Int
  file : List Nat
deriving DecidableEq

/-- Head of the flash image: `value_head`, `marker`, `version`, `marker1`.
These ten words sit in front of the `cause` word. -/
def hdrWords : List Nat := 4278200874 :: markerWords ++ [0] ++ marker1Words

/-- Words 0-15 of the flash image: header, `cause`, `marker2`,
`interrupt_type`, `marker3`.  The `stacktrace` array starts at word 16. -/
def headBlock (tr : FaultRecord) : List Nat :=
  hdrWords ++ [tr.cause] ++ marker2Words ++ [tr.interrupt_type] ++ marker3Words

/-- Words 48 onward of the flash image, after the 32 stack-trace words:
`marker4`, `regs`, `xpsr`, `marker5`, `is_corrupted`, `marker6`, `failnum`,
then the line/file tail. -/
def regsBlock (tr : FaultRecord) : List Nat :=
  marker4Words ++ tr.regs ++ [tr.xpsr] ++ marker5Words ++ [tr.is_corrupted] ++
    marker6Words ++ [tr.failnum] ++ lineFileBlock tr
where
  /-- Words 73 onward: `marker7`, `line`, `marker8`, the 64 `file` bytes
  packed into 16 words, and the closing `marker9`. -/
  lineFileBlock (tr : FaultRecord) : List Nat :=
    marker7Words ++ [encodeInt32 tr.line] ++ marker8Words ++
      packBytes tr.file ++ marker9Words

/-- The 95-word (380-byte) flash image of a `FaultDataFlashStruct`, in the
declared field order with the word offsets fixed by the C layout:
`cause` at word 10, `interrupt_type` at 13, `stacktrace` at 16-47, `regs` at
50-65, `xpsr` at 66, `is_corrupted` at 69, `failnum` at 72, `line` at 75,
`file` at words 78-93. -/
def serializeFault (tr : FaultRecord) : List Nat :=
  headBlock tr ++ tr.stacktrace ++ regsBlock tr

/-- Global state of the translation unit: the atomics and globals declared
at the top of FeatherTrace.cpp, the flash region `FeatherTraceFlash`
(as the list of 32-bit words the NVM controller holds), the register block
`p_main_context.core.r`, and the saved link register / status word.
`wdt_enabled` mirrors `WDT->CTRL.bit.ENABLE` and `wdt_resets` counts the
`WDTReset()` countdown clears. -/
structure State where
  should_feed_watchdog : Bool
  is_being_written : Bool
  last_line : Int
  last_file : List Nat
  flash : List Nat
  p_main_r : List Nat
  saved_lr : Nat
  saved_xpsr : Nat
  wdt_enabled : Bool
  wdt_resets : Nat
deriving DecidableEq

/-- Behaviour of the external libgcc unwinder during one fault capture: the
frames it feeds to `trace_func` in the synchronous `_Unwind_Backtrace` call,
and in the two `__gnu_Unwind_Backtrace` calls of `take_isr_cpu_trace`. -/
structure UnwindEnv where
  syncFrames : List Frame
  isrFrames1 : List Frame
  isrFrames2 : List Frame
deriving DecidableEq

/-- Outcome of `FeatherTrace::Fault`: the watchdog-feed path returns to the
caller; every other path writes a record and ends in `NVIC_SystemReset()`. -/
inductive FaultResult
  | returned : State → FaultResult
  | reset : State → FaultRecord → FaultResult
deriving DecidableEq

/-- Outcome of `FeatherTrace::_Mark`: normal return, or control diverted
into `FeatherTrace::Fault` by the memory check. -/
inductive MarkResult
  | returned : State → MarkResult
  | diverted : FaultResult → MarkResult
deriving DecidableEq

/-- Embedding of `write_to_flash` (lines 218-249).  The routine erases the
reserved rows and programs the words of `trace.raw_u32` (the union view of
the whole struct) into the region page by page; under the NVM data-sheet
semantics the net effect on the words later read back is exactly that the
region now holds the serialised record. -/
def write_to_flash (tr : FaultRecord) (st : State) : State :=
  { st with flash := serializeFault tr }

/-- The failure counter currently persisted in flash,
`((FaultDataFlash_t*)FeatherTraceFlashPtr)->data.failnum` (word 72). -/
def persistedFailnum (st : State) : Nat := st.flash.getD 72 0

/-- The cause currently persisted in flash,
`((FaultDataFlash_t*)FeatherTraceFlashPtr)->data.cause` (word 10). -/
def persistedCause (st : State) : Nat := st.flash.getD 10 0

/-- The backtrace taken by `FeatherTrace::Fault`: the synchronous direct
unwind when no exception is active (lines 285-293), the reconstructed-context
unwind of `take_isr_cpu_trace` otherwise (lines 295-308). -/
def captureTraceArg (last_intr : Nat) (env : UnwindEnv) (st : State) : TraceArg :=
  if last_intr = SCB_NONE then
    runBacktrace st.saved_lr env.syncFrames initArg
  else
    take_isr_cpu_trace st.saved_lr (st.p_main_r.getD 15 0) env.isrFrames1 env.isrFrames2 initArg

/-- The truncating copy of `last_file` into `trace.data.file` (lines
327-335): when the mark write was not in progress, up to 63 bytes are copied
until the terminating NUL and the rest of the zero-initialised 64-byte array
stays zero; when it was in progress only the leading NUL is written. -/
def copiedFileBytes (corrupted : Bool) (last_file : List Nat) : List Nat :=
  if corrupted then List.replicate 64 0
  else
    let s := (last_file.takeWhile (· ≠ 0)).take 63
    s ++ List.replicate (64 - s.length) 0

/-- The record the capture path of `FeatherTrace::Fault` assembles (lines
280-337): the interrupt type, the backtrace copied entry by entry, the
register snapshot (zero-initialised in a synchronous capture, the saved
context with `regs[14] = saved_lr` otherwise), the xPSR, the classified
cause, the corruption flag, the line/file mark and the incremented failure
counter read back from flash. -/
def faultRecordOf (cause : Nat) (last_intr : Nat) (env : UnwindEnv) (st : State) : FaultRecord :=
  let arg := captureTraceArg last_intr env st
  { cause :=
      if cause = FAULT_UNKNOWN then
        if last_intr = SCB_WDTEW then FAULT_HUNG
        else if last_intr = SCB_HARDFAULT then FAULT_HARDFAULT
        else FAULT_UNKNOWN
      else cause,
    interrupt_type := last_intr,
    stacktrace := (List.range MAX_STRACE).map (fun i => arg.stacktrace.getD i 0),
    regs :=
      if last_intr = SCB_NONE then List.replicate 16 0
      else ((List.range 16).map (fun i => st.p_main_r.getD i 0)).set 14 st.saved_lr,
    xpsr := if last_intr = SCB_NONE then 0 else st.saved_xpsr,
    is_corrupted := if st.is_being_written then 1 else 0,
    failnum := (persistedFailnum st + 1) % 4294967296,
    line := st.last_line,
    file := copiedFileBytes st.is_being_written st.last_file }

/-- Embedding of `FeatherTrace::Fault` (lines 259-346).  `last_intr` is the
`VECTACTIVE` field read from `SCB->ICSR` at entry (`*(uint32_t*)0xE000ED04 &
0x1F`); `env` is the external unwinder's behaviour. -/
def Fault (cause : Nat) (last_intr : Nat) (env : UnwindEnv) (st : State) : FaultResult :=
  if last_intr = SCB_WDTEW ∧ st.should_feed_watchdog = true then
    FaultResult.returned
      { st with should_feed_watchdog := false, wdt_resets := st.wdt_resets + 1 }
  else
    FaultResult.reset
      (write_to_flash (faultRecordOf cause last_intr env st) { st with wdt_enabled := false })
      (faultRecordOf cause last_intr env st)

/-- Embedding of `FeatherTrace::_Mark` (lines 414-426).  `mem` is the value
`freeMemory()` computes from the current stack position and heap top;
`_Mark` runs in thread mode, so a fault it raises reads `VECTACTIVE = 0`. -/
def _Mark (line : Int) (file : List Nat) (mem : Int) (env : UnwindEnv) (st : State) : MarkResult :=
  let stw := { st with should_feed_watchdog := true, is_being_written := true }
  let stm := { stw with last_line := line, last_file := file }
  let std := { stm with is_being_written := false }
  if mem < 0 ∨ mem > 60000 then
    MarkResult.diverted (Fault FAULT_OUTOFMEMORY SCB_NONE env std)
  else
    MarkResult.returned std

/-- Embedding of `fill_phase2_vrs` (lines 110-133): `fault_args` is the
eight-word exception entry frame `[r0, r1, r2, r3, r12, lr, pc, xpsr]` and
`addr` its address; slots 4-11 of `p_main_context.core.r` keep whatever the
assembly entry stub `p_handler` stored there. -/
def fill_phase2_vrs (fault_args : List Nat) (addr : Nat) (st : State) : State :=
  let r := st.p_main_r
  let r := r.set 0 (fault_args.getD 0 0)
  let r := r.set 1 (fault_args.getD 1 0)
  let r := r.set 2 (fault_args.getD 2 0)
  let r := r.set 3 (fault_args.getD 3 0)
  let r := r.set 12 (fault_args.getD 4 0)
  let r := r.set 14 (fault_args.getD 6 0)
  let r := r.set 15 (fault_args.getD 6 0)
  let r := r.set 13 (addr + 32)
  { st with p_main_r := r,
            saved_lr := fault_args.getD 5 0,
            saved_xpsr := fault_args.getD 7 0 }

/-- The struct `FeatherTrace::FaultData` returned by `GetFault`
(`is_corrupted` is a `uint8_t` there, hence the truncation on read). -/
structure FaultData where
  cause : Nat
  interrupt_type : Nat
  regs : List Nat
  xpsr : Nat
  is_corrupted : Nat
  failnum : Nat
  line : Int
  file : List Nat
  stacktrace : List Nat
deriving DecidableEq

/-- Embedding of `FeatherTrace::GetFault` (lines 495-513): field-wise copy
out of the flash image at the fixed word offsets of the layout. -/
def GetFault (st : State) : FaultData :=
  let f := st.flash
  { cause := f.getD 10 0,
    interrupt_type := f.getD 13 0,
    regs := (List.range 16).map (fun i => f.getD (50 + i) 0),
    xpsr := f.getD 66 0,
    is_corrupted := f.getD 69 0 % 256,
    failnum := f.getD 72 0,
    line := decodeInt32 (f.getD 75 0),
    file := (List.range 64).map (fun i => f.getD (78 + i / 4) 0 / 256 ^ (i % 4) % 256),
    stacktrace := (List.range MAX_STRACE).map (fun i => f.getD (16 + i) 0) }

/-- Embedding of `FeatherTrace::DidFault` (lines 488-492). -/
def DidFault (st : State) : Bool := persistedCause st != 0

/-- The 32 stack-trace words of the flash image (words 16-47), as indexed by
`trace->data.stacktrace[i]` in `PrintFault`. -/
def stackWords (f : List Nat) : List Nat := (f.drop 16).take MAX_STRACE

/-- Fuel-indexed form of the print loop of `PrintFault` (lines 453-462); the
fuel only makes the recursion structural and is never exhausted when the
loop starts at index 0 with fuel `MAX_STRACE`. -/
def printLoopAux (s : List Nat) (i : Nat) : Nat → List Nat
  | 0 => [s.getD i 0]
  | fuel + 1 =>
      s.getD i 0 ::
        (if i + 1 < MAX_STRACE ∧ s.getD (i + 1) 0 ≠ 0 then printLoopAux s (i + 1) fuel
         else [])

/-- The sequence of stack-trace entries `PrintFault` prints: it prints
`stacktrace[i]`, then continues exactly while `i + 1 < MAX_STRACE` and
`stacktrace[i + 1] != 0`. -/
def printedAddrs (s : List Nat) (i : Nat) : List Nat := printLoopAux s i (MAX_STRACE - i)

/-- The `snprintf(buf, sizeof(buf), "0x%08lx", w)` rendering. -/
def hex8 (w : Nat) : String :=
  let ds := Nat.toDigits 16 w
  "0x" ++ String.mk (List.replicate (8 - ds.length) '0') ++ String.mk ds

/-- The `switch (trace->data.cause)` of `PrintFault` (lines 435-442),
including the source's misspelling of `UKNOWN`. -/
def causeString (c : Nat) : String :=
  if c = FAULT_UNKNOWN then "UKNOWN"
  else if c = FAULT_HUNG then "HUNG"
  else if c = FAULT_HARDFAULT then "HARDFAULT"
  else if c = FAULT_OUTOFMEMORY then "OUTOFMEMORY"
  else if c = FAULT_USER then "USER"
  else "Corrupted"

/-- The `char file[64]` array printed as a C string (stops at the NUL). -/
def fileString (f : List Nat) : String :=
  String.mk ((((List.range 64).map (fun i => f.getD (78 + i / 4) 0 / 256 ^ (i % 4) % 256)).takeWhile
    (· ≠ 0)).map Char.ofNat)

/-- The register block `PrintFault` prints when `interrupt_type != 0`
(lines 464-479): r0-r12, then SP, LR, PC (words 63-65) and xPSR (word 66). -/
def regsStrings (f : List Nat) : List String :=
  ["Registers: "] ++
    (List.range 13).map (fun i => "R" ++ toString i ++ ": " ++ hex8 (f.getD (50 + i) 0)) ++
    ["SP: " ++ hex8 (f.getD 63 0), "LR: " ++ hex8 (f.getD 64 0),
     "PC: " ++ hex8 (f.getD 65 0), "xPSR: " ++ hex8 (f.getD 66 0)]

/-- Embedding of `FeatherTrace::PrintFault` (lines 429-485) as the ordered
list of strings written to the `Print` sink. -/
def PrintFault (st : State) : List String :=
  let f := st.flash
  if f.getD 10 0 ≠ 0 then
    ["Fault! Cause: ", causeString (f.getD 10 0),
     "Fault during recording: ", if f.getD 69 0 ≠ 0 then "Yes" else "No",
     "Line: ", toString (decodeInt32 (f.getD 75 0)),
     "File: ", fileString f,
     "Interrupt type: ", toString (f.getD 13 0),
     "Stacktrace: "] ++
    List.intersperse ", " ((printedAddrs (stackWords f) 0).map hex8) ++
    (if f.getD 13 0 ≠ 0 then regsStrings f else []) ++
    ["Failures since upload: ", toString (f.getD 72 0)]
  else ["No fault"]

/-- Projection: did `Fault` end in the system reset (capture) path? -/
def FaultResult.isReset : FaultResult → Bool
  | .reset _ _ => true
  | .returned _ => false

/-- Projection: the state after `Fault`, on either path. -/
def FaultResult.state : FaultResult → State
  | .reset st _ => st
  | .returned st => st

/-- Projection: the record captured by `Fault` (meaningful on the reset
path; a zeroed record otherwise). -/
def FaultResult.record : FaultResult → FaultRecord
  | .reset _ tr => tr
  | .returned _ =>
      { cause := 0, interrupt_type := 0, stacktrace := [], regs := [], xpsr := 0,
        is_corrupted := 0, failnum := 0, line := 0, file := [] }

/-- Projection: was `_Mark` diverted into the fault path? -/
def MarkResult.isDiverted : MarkResult → Bool
  | .diverted _ => true
  | .returned _ => false

/-- Projection: the fault outcome `_Mark` was diverted into (meaningful on
the diverted path). -/
def MarkResult.faultResult : MarkResult → FaultResult
  | .diverted r => r
  | .returned st => FaultResult.returned st

/-- A convenient initial state: fresh flash (the region is zero after
programming), zeroed globals. -/
def st0 : State :=
  { should_feed_watchdog := false, is_being_written := false, last_line := 0,
    last_file := [], flash := List.replicate 95 0, p_main_r := List.replicate 16 0,
    saved_lr := 0, saved_xpsr := 0, wdt_enabled := false, wdt_resets := 0 }

/-- An unwinder behaviour that yields no frames at all. -/
def env0 : UnwindEnv := { syncFrames := [], isrFrames1 := [], isrFrames2 := [] }

/-- A state whose persisted failure counter sits at the `uint32_t` maximum. -/
def stFF : State := { st0 with flash := List.replicate 72 0 ++ [4294967295] }

/-- Well-formedness of a `FaultDataFlashStruct` value, as guaranteed by its C
types: the fixed array lengths and the `uint32_t` / `uint8_t` / `int32_t`
value ranges. -/
def wfRecord (tr : FaultRecord) : Prop :=
  tr.stacktrace.length = 32 ∧ (∀ x ∈ tr.stacktrace, x < 4294967296) ∧
  tr.regs.length = 16 ∧ (∀ x ∈ tr.regs, x < 4294967296) ∧
  tr.file.length = 64 ∧ (∀ x ∈ tr.file, x < 256) ∧
  tr.cause < 4294967296 ∧ tr.interrupt_type < 4294967296 ∧ tr.xpsr < 4294967296 ∧
  tr.is_corrupted < 256 ∧ tr.failnum < 4294967296 ∧
  -2147483648 ≤ tr.line ∧ tr.line < 2147483648

/-- N consecutive synchronous captures: each step runs `Fault` from thread
mode (`VECTACTIVE = 0`, so the capture path is always taken, for any cause
and any unwinder behaviour) and continues from the state the reset leaves in
flash. -/
def iterCapture (causes : Nat → Nat) (envs : Nat → UnwindEnv) : Nat → State → State
  | 0, st => st
  | n + 1, st => iterCapture causes envs n ((Fault (causes n) SCB_NONE (envs n) st).state)

/-- A record with a full-capacity (32 nonzero entries) stack trace. -/
def recFull : FaultRecord :=
  { cause := 3, interrupt_type := 3,
    stacktrace := (List.range 32).map (fun i => 4096 + i),
    regs := (List.range 16).map (fun i => 100 + i), xpsr := 22,
    is_corrupted := 1, failnum := 7, line := -42,
    file := 109 :: 97 :: 105 :: 110 :: List.replicate 60 0 }

/-- A record with a zero-length stack trace. -/
def recZero : FaultRecord :=
  { cause := 0, interrupt_type := 0, stacktrace := List.replicate 32 0,
    regs := List.replicate 16 0, xpsr := 0, is_corrupted := 0, failnum := 0,
    line := 0, file := List.replicate 64 0 }

/-- A state whose `p_main_context.core.r` holds recognisable values written
by the assembly entry stub. -/
def stStub : State := { st0 with p_main_r := (List.range 16).map (fun i => 50 + i) }

theorem getD_append_block (a b : List Nat) (k i : Nat) (ha : a.length = k) :
    (a ++ b).getD (k + i) 0 = b.getD i 0 := by
  subst ha
  rw [List.getD_append_right a b 0 (a.length + i) (Nat.le_add_right _ _)]
  congr 1
  omega

theorem map_range_getD : ∀ (n : Nat) (l : List Nat), l.length = n →
    (List.range n).map (fun i => l.getD i 0) = l
  | 0, l, h => by
      have : l = [] := List.length_eq_zero.mp h
      subst this; rfl
  | n + 1, l, h => by
      match l with
      | a :: t =>
        rw [List.range_succ_eq_map, List.map_cons, List.map_map]
        have ht : t.length = n := by simpa using h
        have : (fun i => (a :: t).getD i 0) ∘ Nat.succ = fun i => t.getD i 0 := rfl
        rw [this, map_range_getD n t ht]
        rfl

theorem packBytes_length : ∀ (l : List Nat), (packBytes l).length = l.length / 4
  | [] => by simp [packBytes]
  | [_] => by simp [packBytes]
  | [_, _] => by simp [packBytes]
  | [_, _, _] => by simp [packBytes]
  | b0 :: b1 :: b2 :: b3 :: rest => by
      simp only [packBytes, List.length_cons, packBytes_length rest]
      omega

theorem packBytes_byte : ∀ (l : List Nat), (∀ x ∈ l, x < 256) → l.length % 4 = 0 →
    ∀ i < l.length, (packBytes l).getD (i / 4) 0 / 256 ^ (i % 4) % 256 = l.getD i 0
  | [], _, _, i, hi => absurd hi (by simp)
  | [_], _, h4, _, _ => by simp at h4
  | [_, _], _, h4, _, _ => by simp at h4
  | [_, _, _], _, h4, _, _ => by simp at h4
  | b0 :: b1 :: b2 :: b3 :: rest, hb, h4, i, hi => by
      have hb0 : b0 < 256 := hb b0 (by simp)
      have hb1 : b1 < 256 := hb b1 (by simp)
      have hb2 : b2 < 256 := hb b2 (by simp)
      have hb3 : b3 < 256 := hb b3 (by simp)
      by_cases hc : i < 4
      · interval_cases i <;> simp [packBytes] <;> omega
      · obtain ⟨j, rfl⟩ : ∃ j, i = j + 4 := ⟨i - 4, by omega⟩
        have hdiv : (j + 4) / 4 = j / 4 + 1 := by omega
        have hmod : (j + 4) % 4 = j % 4 := by omega
        have hrest : ∀ x ∈ rest, x < 256 := fun x hx => hb x (by simp [hx])
        have h4' : rest.length % 4 = 0 := by
          simp only [List.length_cons] at h4; omega
        have hj : j < rest.length := by
          simp only [List.length_cons] at hi; omega
        rw [hdiv, hmod]
        show (packBytes rest).getD (j / 4) 0 / 256 ^ (j % 4) % 256 = rest.getD j 0
        exact packBytes_byte rest hrest h4' j hj

theorem decode_encode_int32 (z : Int) (h1 : -2147483648 ≤ z) (h2 : z < 2147483648) :
    decodeInt32 (encodeInt32 z) = z := by
  unfold decodeInt32 encodeInt32
  split <;> omega

theorem getD_via_drop (l : List Nat) (k i : Nat) :
    l.getD (k + i) 0 = (l.drop k).getD i 0 := by
  simp [List.getD_eq_getElem?_getD, List.getElem?_drop]

theorem getD_skip (a b : List Nat) (n i : Nat) (ha : a.length = n) (h : n ≤ i) :
    (a ++ b).getD i 0 = b.getD (i - n) 0 := by
  subst ha
  exact List.getD_append_right a b 0 i h

theorem headBlock_length (tr : FaultRecord) : (headBlock tr).length = 16 := rfl

theorem serialize_getD_cause (tr : FaultRecord) :
    (serializeFault tr).getD 10 0 = tr.cause := rfl

theorem serialize_getD_intr (tr : FaultRecord) :
    (serializeFault tr).getD 13 0 = tr.interrupt_type := rfl

theorem serialize_drop_16 (tr : FaultRecord) :
    (serializeFault tr).drop 16 = tr.stacktrace ++ regsBlock tr := by
  unfold serializeFault
  rw [List.append_assoc]
  exact List.drop_left' (headBlock_length tr)

theorem serialize_getD_stack (tr : FaultRecord) (hs : tr.stacktrace.length = 32)
    (i : Nat) (hi : i < 32) :
    (serializeFault tr).getD (16 + i) 0 = tr.stacktrace.getD i 0 := by
  rw [getD_via_drop, serialize_drop_16]
  exact List.getD_append _ _ _ _ (by omega)

theorem stackWords_serialize (tr : FaultRecord) (hs : tr.stacktrace.length = 32) :
    stackWords (serializeFault tr) = tr.stacktrace := by
  unfold stackWords MAX_STRACE
  rw [serialize_drop_16, List.take_left' hs]

theorem serialize_drop_48 (tr : FaultRecord) (hs : tr.stacktrace.length = 32) :
    (serializeFault tr).drop 48 = regsBlock tr := by
  unfold serializeFault
  exact List.drop_left' (by simp [headBlock_length, hs])

theorem serialize_getD_regs (tr : FaultRecord) (hs : tr.stacktrace.length = 32)
    (hr : tr.regs.length = 16) (i : Nat) (hi : i < 16) :
    (serializeFault tr).getD (50 + i) 0 = tr.regs.getD i 0 := by
  rw [show 50 + i = 48 + (2 + i) by omega, getD_via_drop, serialize_drop_48 tr hs]
  unfold regsBlock
  simp only [List.append_assoc]
  rw [getD_via_drop _ 2 i, List.drop_left' (show marker4Words.length = 2 from rfl)]
  exact List.getD_append _ _ _ _ (by omega)

theorem serialize_drop_66 (tr : FaultRecord) (hs : tr.stacktrace.length = 32)
    (hr : tr.regs.length = 16) :
    (serializeFault tr).drop 66 =
      [tr.xpsr] ++ marker5Words ++ [tr.is_corrupted] ++ marker6Words ++ [tr.failnum] ++
        regsBlock.lineFileBlock tr := by
  rw [show (66 : Nat) = 48 + 18 by omega, ← List.drop_drop, serialize_drop_48 tr hs]
  unfold regsBlock
  simp only [List.append_assoc]
  rw [show (18 : Nat) = 2 + 16 by omega, ← List.drop_drop,
    List.drop_left' (show marker4Words.length = 2 from rfl), List.drop_left' hr]

theorem serialize_getD_xpsr (tr : FaultRecord) (hs : tr.stacktrace.length = 32)
    (hr : tr.regs.length = 16) :
    (serializeFault tr).getD 66 0 = tr.xpsr := by
  rw [show (66 : Nat) = 66 + 0 by omega, getD_via_drop, serialize_drop_66 tr hs hr]
  rfl

theorem serialize_getD_corrupted (tr : FaultRecord) (hs : tr.stacktrace.length = 32)
    (hr : tr.regs.length = 16) :
    (serializeFault tr).getD 69 0 = tr.is_corrupted := by
  rw [show (69 : Nat) = 66 + 3 by omega, getD_via_drop, serialize_drop_66 tr hs hr]
  rfl

theorem serialize_getD_failnum (tr : FaultRecord) (hs : tr.stacktrace.length = 32)
    (hr : tr.regs.length = 16) :
    (serializeFault tr).getD 72 0 = tr.failnum := by
  rw [show (72 : Nat) = 66 + 6 by omega, getD_via_drop, serialize_drop_66 tr hs hr]
  rfl

theorem serialize_getD_line (tr : FaultRecord) (hs : tr.stacktrace.length = 32)
    (hr : tr.regs.length = 16) :
    (serializeFault tr).getD 75 0 = encodeInt32 tr.line := by
  rw [show (75 : Nat) = 66 + 9 by omega, getD_via_drop, serialize_drop_66 tr hs hr]
  rfl

theorem serialize_getD_file (tr : FaultRecord) (hs : tr.stacktrace.length = 32)
    (hr : tr.regs.length = 16) (hf : tr.file.length = 64) (j : Nat) (hj : j < 16) :
    (serializeFault tr).getD (78 + j) 0 = (packBytes tr.file).getD j 0 := by
  rw [show 78 + j = 66 + (12 + j) by omega, getD_via_drop, serialize_drop_66 tr hs hr,
    getD_via_drop _ 12 j]
  have hdrop : ([tr.xpsr] ++ marker5Words ++ [tr.is_corrupted] ++ marker6Words ++ [tr.failnum] ++
      regsBlock.lineFileBlock tr).drop 12 = packBytes tr.file ++ marker9Words := rfl
  rw [hdrop]
  exact List.getD_append _ _ _ _ (by rw [packBytes_length, hf]; omega)

theorem trace_func_step (saved_lr : Nat) (f : Frame) (a : TraceArg) :
    (trace_func saved_lr f a).1.stacktrace.length = a.stacktrace.length ∧
    a.strace_len ≤ (trace_func saved_lr f a).1.strace_len ∧
    (trace_func saved_lr f a).1.strace_len ≤ max a.strace_len (MAX_STRACE - 1) ∧
    ∀ i < a.strace_len, (trace_func saved_lr f a).1.stacktrace.getD i 0 = a.stacktrace.getD i 0 := by
  unfold trace_func MAX_STRACE
  split
  · split <;> exact ⟨rfl, Nat.le_refl _, Nat.le_max_left _ _, fun _ _ => rfl⟩
  · split
    · exact ⟨rfl, Nat.le_refl _, Nat.le_max_left _ _, fun _ _ => rfl⟩
    · have hlen : ¬ (32 - 1 ≤ a.strace_len) := by assumption
      have hpre : ∀ i < a.strace_len,
          (a.stacktrace.set a.strace_len f.ip).getD i 0 = a.stacktrace.getD i 0 := by
        intro i hi
        rw [List.getD_eq_getElem?_getD, List.getD_eq_getElem?_getD,
          List.getElem?_set_ne (by omega)]
      split <;>
        (try dsimp only) <;>
        exact ⟨List.length_set _ _ _, by omega, by omega, hpre⟩

theorem runBacktrace_invariant (saved_lr : Nat) : ∀ (fs : List Frame) (a : TraceArg),
    (runBacktrace saved_lr fs a).stacktrace.length = a.stacktrace.length ∧
    a.strace_len ≤ (runBacktrace saved_lr fs a).strace_len ∧
    (runBacktrace saved_lr fs a).strace_len ≤ max a.strace_len (MAX_STRACE - 1) ∧
    ∀ i < a.strace_len, (runBacktrace saved_lr fs a).stacktrace.getD i 0 = a.stacktrace.getD i 0
  | [], a => ⟨rfl, Nat.le_refl _, Nat.le_max_left _ _, fun _ _ => rfl⟩
  | f :: fs, a => by
      have hstep := trace_func_step saved_lr f a
      unfold runBacktrace
      match htf : trace_func saved_lr f a with
      | (a', .end_of_stack) =>
          rw [htf] at hstep
          exact hstep
      | (a', .no_reason) =>
          rw [htf] at hstep
          have ih := runBacktrace_invariant saved_lr fs a'
          obtain ⟨l1, m1, b1, p1⟩ := hstep
          obtain ⟨l2, m2, b2, p2⟩ := ih
          dsimp only at l1 m1 b1 p1
          simp only [MAX_STRACE] at b1 b2 ⊢
          refine ⟨l2.trans l1, m1.trans m2, by omega, ?_⟩
          intro i hi
          rw [p2 i (by omega), p1 i hi]

theorem isrFallbackPC_spec (pc : Nat) (a : TraceArg) :
    (isrFallbackPC pc a).strace_len = (if a.strace_len = 0 then 1 else a.strace_len) ∧
    (isrFallbackPC pc a).stacktrace.length = a.stacktrace.length := by
  unfold isrFallbackPC
  split <;> simp_all

theorem isrRetryLR_spec (saved_lr : Nat) (f2 : List Frame) (a : TraceArg) :
    (a.strace_len = 1 →
      1 ≤ (isrRetryLR saved_lr f2 a).strace_len ∧
      (isrRetryLR saved_lr f2 a).strace_len ≤ MAX_STRACE - 1 ∧
      (isrRetryLR saved_lr f2 a).stacktrace.length = a.stacktrace.length) ∧
    (a.strace_len ≠ 1 → isrRetryLR saved_lr f2 a = a) := by
  unfold isrRetryLR
  constructor
  · intro h1
    have h := runBacktrace_invariant saved_lr f2 { a with last_ip := 0 }
    rw [if_pos h1]
    obtain ⟨l, m, b, -⟩ := h
    dsimp only at l m b
    simp only [MAX_STRACE] at b ⊢
    exact ⟨by omega, by omega, l⟩
  · intro h1
    rw [if_neg h1]

theorem isrFallbackLR_spec (saved_lr : Nat) (a : TraceArg) :
    ((isrFallbackLR saved_lr a).strace_len = if a.strace_len = 1 then 2 else a.strace_len) ∧
    (isrFallbackLR saved_lr a).stacktrace.length = a.stacktrace.length := by
  unfold isrFallbackLR
  split <;> simp_all

theorem take_isr_aux (saved_lr pc : Nat) (f2 : List Frame) (a : TraceArg)
    (hb : a.strace_len ≤ 31) (hl : a.stacktrace.length = 32) :
    1 ≤ (isrFallbackLR saved_lr (isrRetryLR saved_lr f2 (isrFallbackPC pc a))).strace_len ∧
    (isrFallbackLR saved_lr (isrRetryLR saved_lr f2 (isrFallbackPC pc a))).strace_len ≤ MAX_STRACE ∧
    (isrFallbackLR saved_lr (isrRetryLR saved_lr f2 (isrFallbackPC pc a))).stacktrace.length
      = MAX_STRACE := by
  obtain ⟨p2len, p2l⟩ := isrFallbackPC_spec pc a
  obtain ⟨r1, r2⟩ := isrRetryLR_spec saved_lr f2 (isrFallbackPC pc a)
  obtain ⟨f3len, f3l⟩ := isrFallbackLR_spec saved_lr (isrRetryLR saved_lr f2 (isrFallbackPC pc a))
  have hM : MAX_STRACE = 32 := rfl
  rw [hM]
  by_cases h2 : (isrFallbackPC pc a).strace_len = 1
  · obtain ⟨q1, q2, q3⟩ := r1 h2
    rw [hM] at q2
    by_cases h3 : (isrRetryLR saved_lr f2 (isrFallbackPC pc a)).strace_len = 1
    · rw [if_pos h3] at f3len
      exact ⟨by omega, by omega, by rw [f3l, q3, p2l, hl]⟩
    · rw [if_neg h3] at f3len
      exact ⟨by omega, by omega, by rw [f3l, q3, p2l, hl]⟩
  · have ha3 := r2 h2
    rw [ha3] at f3len f3l ⊢
    rw [if_neg h2] at f3len
    by_cases h0 : a.strace_len = 0
    · rw [if_pos h0] at p2len
      exact absurd p2len h2
    · rw [if_neg h0] at p2len
      exact ⟨by omega, by omega, by rw [f3l, p2l, hl]⟩

theorem take_isr_invariant (saved_lr pc : Nat) (f1 f2 : List Frame) :
    1 ≤ (take_isr_cpu_trace saved_lr pc f1 f2 initArg).strace_len ∧
    (take_isr_cpu_trace saved_lr pc f1 f2 initArg).strace_len ≤ MAX_STRACE ∧
    (take_isr_cpu_trace saved_lr pc f1 f2 initArg).stacktrace.length = MAX_STRACE := by
  have b1 := (runBacktrace_invariant saved_lr f1 initArg).2.2.1
  have l1 := (runBacktrace_invariant saved_lr f1 initArg).1
  have hmax : max initArg.strace_len (MAX_STRACE - 1) = 31 := by decide
  rw [hmax] at b1
  have hl1 : (runBacktrace saved_lr f1 initArg).stacktrace.length = 32 := by
    rw [l1]; rfl
  unfold take_isr_cpu_trace
  exact take_isr_aux saved_lr pc f2 (runBacktrace saved_lr f1 initArg) b1 hl1

theorem getD_set_self (l : List Nat) (i x : Nat) (h : i < l.length) :
    (l.set i x).getD i 0 = x := by
  rw [List.getD_eq_getElem?_getD, List.getElem?_set_self h]
  rfl

theorem getD_set_other (l : List Nat) (i j x : Nat) (h : i ≠ j) :
    (l.set i x).getD j 0 = l.getD j 0 := by
  rw [List.getD_eq_getElem?_getD, List.getElem?_set_ne h, ← List.getD_eq_getElem?_getD]

theorem copiedFileBytes_length (c : Bool) (lf : List Nat) :
    (copiedFileBytes c lf).length = 64 := by
  unfold copiedFileBytes
  split
  · simp
  · have h : ((lf.takeWhile (· ≠ 0)).take 63).length ≤ 63 := by
      rw [List.length_take]
      omega
    simp only [List.length_append, List.length_replicate]
    omega

theorem printLoopAux_spec : ∀ (fuel i : Nat) (s : List Nat), s.length = 32 →
    i + fuel = 32 → i < 32 →
    printLoopAux s i fuel = s.getD i 0 :: (s.drop (i + 1)).takeWhile (· ≠ 0)
  | 0, i, _, _, hf, hi => by omega
  | fuel + 1, i, s, hs, hf, hi => by
      unfold printLoopAux MAX_STRACE
      by_cases hlt : i + 1 < 32
      · have hcons : s.drop (i + 1) = s[i + 1] :: s.drop (i + 1 + 1) :=
          List.drop_eq_getElem_cons (by omega)
        have hval : s.getD (i + 1) 0 = s[i + 1] := by
          rw [List.getD_eq_getElem?_getD, List.getElem?_eq_getElem (by omega)]
          rfl
        by_cases hz : s.getD (i + 1) 0 = 0
        · rw [if_neg (fun hand => hand.2 hz)]
          rw [hcons, List.takeWhile_cons, ← hval]
          rw [if_neg (by simpa using hz)]
        · rw [if_pos ⟨hlt, hz⟩,
            printLoopAux_spec fuel (i + 1) s hs (by omega) (by omega)]
          rw [hcons, List.takeWhile_cons, ← hval]
          rw [if_pos (by simpa using hz)]
      · rw [if_neg (fun hand => hlt hand.1)]
        rw [List.drop_eq_nil_of_le (by omega)]
        rfl

theorem printedAddrs_spec (s : List Nat) (h : s.length = 32) :
    printedAddrs s 0 = s.getD 0 0 :: (s.drop 1).takeWhile (· ≠ 0) := by
  unfold printedAddrs
  exact printLoopAux_spec (MAX_STRACE - 0) 0 s h (by decide) (by decide)

theorem printedAddrs_head_ne (s : List Nat) (h : s.length = 32) (hne : s.getD 0 0 ≠ 0) :
    printedAddrs s 0 = s.takeWhile (· ≠ 0) := by
  rw [printedAddrs_spec s h]
  match s with
  | a :: t =>
    have ha : a ≠ 0 := by simpa using hne
    simp [List.takeWhile_cons, ha]

theorem getD_map_range (n j : Nat) (f : Nat → Nat) (h : j < n) :
    ((List.range n).map f).getD j 0 = f j := by
  rw [List.getD_eq_getElem?_getD, List.getElem?_map, List.getElem?_range h]
  rfl

theorem Fault_reset (cause last_intr : Nat) (env : UnwindEnv) (st : State)
    (h : ¬(last_intr = SCB_WDTEW ∧ st.should_feed_watchdog = true)) :
    Fault cause last_intr env st =
      FaultResult.reset
        (write_to_flash (faultRecordOf cause last_intr env st) { st with wdt_enabled := false })
        (faultRecordOf cause last_intr env st) := by
  unfold Fault
  rw [if_neg h]

theorem faultRecordOf_lengths (cause last_intr : Nat) (env : UnwindEnv) (st : State) :
    (faultRecordOf cause last_intr env st).stacktrace.length = 32 ∧
    (faultRecordOf cause last_intr env st).regs.length = 16 ∧
    (faultRecordOf cause last_intr env st).file.length = 64 := by
  unfold faultRecordOf
  refine ⟨by simp [MAX_STRACE], ?_, copiedFileBytes_length _ _⟩
  dsimp only
  split
  · simp
  · simp [List.length_set]

theorem persistedFailnum_after (tr : FaultRecord) (st : State)
    (hs : tr.stacktrace.length = 32) (hr : tr.regs.length = 16) :
    persistedFailnum (write_to_flash tr st) = tr.failnum := by
  unfold persistedFailnum write_to_flash
  exact serialize_getD_failnum tr hs hr

theorem persistedCause_after (tr : FaultRecord) (st : State) :
    persistedCause (write_to_flash tr st) = tr.cause := by
  unfold persistedCause write_to_flash
  exact serialize_getD_cause tr

/-- Claim C2: when `Fault` is entered with the watchdog early-warning
interrupt active and the feed-requested flag set, it clears the flag, resets
the watchdog countdown and returns, with the flash record untouched; this is
the only path on which `Fault` returns; with the flag clear it captures and
persists a fault, classified as `Hung` when the cause was `Unknown`. -/
theorem fault_wdt_feed_path (cause last_intr : Nat) (env : UnwindEnv) (st : State) :
    (last_intr = SCB_WDTEW ∧ st.should_feed_watchdog = true →
      Fault cause last_intr env st =
        FaultResult.returned
          { st with should_feed_watchdog := false, wdt_resets := st.wdt_resets + 1 }) ∧
    (∀ st', Fault cause last_intr env st = FaultResult.returned st' →
      last_intr = SCB_WDTEW ∧ st.should_feed_watchdog = true ∧ st'.flash = st.flash) ∧
    (last_intr = SCB_WDTEW → st.should_feed_watchdog = false →
      ∃ st' tr, Fault cause last_intr env st = FaultResult.reset st' tr ∧
        st'.flash = serializeFault tr ∧
        (cause = FAULT_UNKNOWN → tr.cause = FAULT_HUNG)) := by
  refine ⟨?_, ?_, ?_⟩
  · intro h
    unfold Fault
    rw [if_pos h]
  · intro st' h
    unfold Fault at h
    by_cases hc : last_intr = SCB_WDTEW ∧ st.should_feed_watchdog = true
    · rw [if_pos hc] at h
      injection h with h1
      exact ⟨hc.1, hc.2, by rw [← h1]⟩
    · rw [if_neg hc] at h
      exact FaultResult.noConfusion h
  · intro h1 h2
    have hc : ¬(last_intr = SCB_WDTEW ∧ st.should_feed_watchdog = true) := by
      intro hand
      rw [h2] at hand
      exact Bool.false_ne_true hand.2
    refine ⟨_, _, Fault_reset cause last_intr env st hc, rfl, ?_⟩
    intro hcu
    unfold faultRecordOf
    dsimp only
    rw [if_pos hcu, if_pos h1]

/-- Witness for C2 at a concrete state: feeding with the flag set returns
with the flag cleared and the countdown reset; with the flag clear the same
interrupt captures a record classified `Hung`. -/
theorem fault_wdt_feed_path_witness :
    Fault FAULT_UNKNOWN SCB_WDTEW env0 { st0 with should_feed_watchdog := true } =
      FaultResult.returned { st0 with should_feed_watchdog := false, wdt_resets := 1 } ∧
    (∃ st' tr, Fault FAULT_UNKNOWN SCB_WDTEW env0 st0 = FaultResult.reset st' tr ∧
      st'.flash = serializeFault tr ∧
      (FAULT_UNKNOWN = FAULT_UNKNOWN → tr.cause = FAULT_HUNG)) :=
  ⟨(fault_wdt_feed_path FAULT_UNKNOWN SCB_WDTEW env0
      { st0 with should_feed_watchdog := true }).1 ⟨rfl, rfl⟩,
   (fault_wdt_feed_path FAULT_UNKNOWN SCB_WDTEW env0 st0).2.2 rfl rfl⟩

/-- Claim C3: the persisted cause is the classification of the argument:
`Unknown` is refined to `Hung` on the watchdog early-warning identifier (18)
and to `HardFault` on the hard-fault vector (3), and any other argument is
stored verbatim. -/
theorem fault_cause_classified (cause last_intr : Nat) (env : UnwindEnv) (st : State)
    (st' : State) (tr : FaultRecord)
    (h : Fault cause last_intr env st = FaultResult.reset st' tr) :
    (cause = FAULT_UNKNOWN →
      tr.cause = if last_intr = SCB_WDTEW then FAULT_HUNG
        else if last_intr = SCB_HARDFAULT then FAULT_HARDFAULT else FAULT_UNKNOWN) ∧
    (cause ≠ FAULT_UNKNOWN → tr.cause = cause) := by
  unfold Fault at h
  by_cases hc : last_intr = SCB_WDTEW ∧ st.should_feed_watchdog = true
  · rw [if_pos hc] at h
    exact FaultResult.noConfusion h
  · rw [if_neg hc] at h
    injection h with h1 h2
    subst h2
    unfold faultRecordOf
    constructor
    · intro hcu
      dsimp only
      rw [if_pos hcu]
    · intro hcu
      dsimp only
      rw [if_neg hcu]

/-- Witness for C3: an `Unknown` cause in the watchdog interrupt becomes
`Hung`, and a `User` cause in a synchronous capture is stored verbatim. -/
theorem fault_cause_classified_witness :
    (faultRecordOf FAULT_UNKNOWN SCB_WDTEW env0 st0).cause = FAULT_HUNG ∧
    (faultRecordOf FAULT_USER SCB_NONE env0 st0).cause = FAULT_USER := by
  constructor
  · have h := (fault_cause_classified FAULT_UNKNOWN SCB_WDTEW env0 st0 _ _
      (Fault_reset FAULT_UNKNOWN SCB_WDTEW env0 st0 (by decide))).1 rfl
    rw [if_pos rfl] at h
    exact h
  · exact (fault_cause_classified FAULT_USER SCB_NONE env0 st0 _ _
      (Fault_reset FAULT_USER SCB_NONE env0 st0 (by decide))).2 (by decide)

/-- Claim C10: `Fault` called with cause `None` still runs the full capture
path: a record with cause `None` and an incremented failure counter is
written, after which `DidFault` answers `false` and `PrintFault` reports no
fault. -/
theorem fault_none_capture (env : UnwindEnv) (st : State) :
    (Fault FAULT_NONE SCB_NONE env st).isReset = true ∧
    (Fault FAULT_NONE SCB_NONE env st).record.cause = FAULT_NONE ∧
    (Fault FAULT_NONE SCB_NONE env st).record.failnum
      = (persistedFailnum st + 1) % 4294967296 ∧
    DidFault (Fault FAULT_NONE SCB_NONE env st).state = false ∧
    PrintFault (Fault FAULT_NONE SCB_NONE env st).state = ["No fault"] := by
  have hnf : ¬(SCB_NONE = SCB_WDTEW ∧ st.should_feed_watchdog = true) := by
    intro hand
    exact absurd hand.1 (by decide)
  rw [Fault_reset FAULT_NONE SCB_NONE env st hnf]
  have hcz : (faultRecordOf FAULT_NONE SCB_NONE env st).cause = 0 := rfl
  refine ⟨rfl, rfl, rfl, ?_, ?_⟩
  · unfold DidFault persistedCause FaultResult.state write_to_flash
    dsimp only
    rw [serialize_getD_cause, hcz]
    rfl
  · unfold PrintFault FaultResult.state write_to_flash
    dsimp only
    rw [serialize_getD_cause, hcz]
    rw [if_neg (by decide)]

/-- Counterexample to claim C1 as stated: a free-memory margin of 60001 is
non-negative and not below any safety threshold the code knows (its only
threshold constant is 60000), yet `_Mark` does not return — it diverts into
the fault path with cause `OutOfMemory`, because the code faults when the
margin EXCEEDS 60000, not when it falls below a threshold. -/
theorem mark_threshold_cx :
    (0 : Int) ≤ 60001 ∧ ¬((60001 : Int) < 60000) ∧
    (_Mark 42 [109, 97, 105, 110] 60001 env0 st0).isDiverted = true ∧
    (_Mark 42 [109, 97, 105, 110] 60001 env0 st0).faultResult.record.cause
      = FAULT_OUTOFMEMORY := by
  refine ⟨by decide, by decide, ?_, ?_⟩ <;> rfl

/-- Claim C1 as amended: `_Mark` diverts into `Fault` with cause
`OutOfMemory` exactly when the computed margin is negative or exceeds 60000,
and the resulting synchronous capture populates no register snapshot; for
`0 ≤ margin ≤ 60000` it returns normally with the mark stored. -/
theorem mark_memory_guard (line : Int) (file : List Nat) (mem : Int) (env : UnwindEnv)
    (st : State) :
    (mem < 0 ∨ mem > 60000 →
      ∃ st' tr, _Mark line file mem env st = MarkResult.diverted (FaultResult.reset st' tr) ∧
        tr.cause = FAULT_OUTOFMEMORY ∧ tr.interrupt_type = SCB_NONE ∧
        tr.regs = List.replicate 16 0 ∧ tr.xpsr = 0) ∧
    (0 ≤ mem ∧ mem ≤ 60000 →
      _Mark line file mem env st = MarkResult.returned
        { st with should_feed_watchdog := true, is_being_written := false,
                  last_line := line, last_file := file }) := by
  constructor
  · intro hm
    unfold _Mark
    rw [if_pos hm]
    rw [Fault_reset _ _ _ _ (by intro hand; exact absurd hand.1 (by decide))]
    refine ⟨_, _, rfl, ?_, rfl, ?_, rfl⟩
    · unfold faultRecordOf
      dsimp only
      rw [if_neg (by decide)]
    · unfold faultRecordOf
      dsimp only
      rw [if_pos rfl]
  · intro hm
    unfold _Mark
    rw [if_neg (by omega)]

/-- Witness for the amended C1 at concrete margins: -1 faults with
`OutOfMemory` and an empty register snapshot, 500 returns normally. -/
theorem mark_memory_guard_witness :
    (∃ st' tr, _Mark 1 [97] (-1) env0 st0 = MarkResult.diverted (FaultResult.reset st' tr) ∧
      tr.cause = FAULT_OUTOFMEMORY ∧ tr.interrupt_type = SCB_NONE ∧
      tr.regs = List.replicate 16 0 ∧ tr.xpsr = 0) ∧
    _Mark 1 [97] 500 env0 st0 = MarkResult.returned
      { st0 with should_feed_watchdog := true, is_being_written := false,
                 last_line := 1, last_file := [97] } :=
  ⟨(mark_memory_guard 1 [97] (-1) env0 st0).1 (Or.inl (by decide)),
   (mark_memory_guard 1 [97] 500 env0 st0).2 (by decide)⟩

/-- Claim C4: a capture taken while the mark write was in progress persists
`is_corrupted = 1` and an all-zero filename, regardless of the stored file
pointer; a capture taken after `_Mark` returned persists `is_corrupted = 0`
and the very line and file passed to that `_Mark`. -/
theorem fault_corruption_location (cause last_intr : Nat) (env : UnwindEnv) (st : State) :
    (∀ st' tr, st.is_being_written = true →
      Fault cause last_intr env st = FaultResult.reset st' tr →
      tr.is_corrupted = 1 ∧ tr.file = List.replicate 64 0) ∧
    (∀ (line : Int) (file : List Nat) (mem : Int) (menv : UnwindEnv) (stM st' : State)
        (tr : FaultRecord),
      _Mark line file mem menv st = MarkResult.returned stM →
      file.length ≤ 63 → (∀ b ∈ file, b ≠ 0) →
      Fault cause last_intr env stM = FaultResult.reset st' tr →
      tr.is_corrupted = 0 ∧ tr.line = line ∧
        tr.file = file ++ List.replicate (64 - file.length) 0) := by
  constructor
  · intro st' tr hw h
    unfold Fault at h
    by_cases hc : last_intr = SCB_WDTEW ∧ st.should_feed_watchdog = true
    · rw [if_pos hc] at h
      exact FaultResult.noConfusion h
    · rw [if_neg hc] at h
      injection h with h1 h2
      subst h2
      unfold faultRecordOf copiedFileBytes
      dsimp only
      rw [hw]
      exact ⟨rfl, rfl⟩
  · intro line file mem menv stM st' tr hmark hlen hnz h
    unfold _Mark at hmark
    by_cases hm : mem < 0 ∨ mem > 60000
    · rw [if_pos hm] at hmark
      exact MarkResult.noConfusion hmark
    · rw [if_neg hm] at hmark
      injection hmark with h1
      have hw : stM.is_being_written = false := by rw [← h1]
      have hline : stM.last_line = line := by rw [← h1]
      have hfile : stM.last_file = file := by rw [← h1]
      unfold Fault at h
      by_cases hc : last_intr = SCB_WDTEW ∧ stM.should_feed_watchdog = true
      · rw [if_pos hc] at h
        exact FaultResult.noConfusion h
      · rw [if_neg hc] at h
        injection h with h2 h3
        subst h3
        have htw : file.takeWhile (· ≠ 0) = file :=
          List.takeWhile_eq_self_iff.mpr (fun x hx => by simpa using hnz x hx)
        unfold faultRecordOf copiedFileBytes
        dsimp only
        rw [hw, hline, hfile, if_neg Bool.false_ne_true, if_neg Bool.false_ne_true,
          htw, List.take_of_length_le hlen]
        exact ⟨rfl, rfl, rfl⟩

/-- Witness for C4: a capture with the write-in-progress flag set yields a
corrupted record with an empty filename; `mark(7, "ab")` followed by a
synchronous capture yields a clean record locating line 7 in that file. -/
theorem fault_corruption_location_witness :
    ((faultRecordOf FAULT_USER SCB_NONE env0 { st0 with is_being_written := true }).is_corrupted
        = 1 ∧
      (faultRecordOf FAULT_USER SCB_NONE env0 { st0 with is_being_written := true }).file
        = List.replicate 64 0) ∧
    ((faultRecordOf FAULT_USER SCB_NONE env0
        { st0 with should_feed_watchdog := true, is_being_written := false,
                   last_line := 7, last_file := [97, 98] }).is_corrupted = 0 ∧
      (faultRecordOf FAULT_USER SCB_NONE env0
        { st0 with should_feed_watchdog := true, is_being_written := false,
                   last_line := 7, last_file := [97, 98] }).line = 7 ∧
      (faultRecordOf FAULT_USER SCB_NONE env0
        { st0 with should_feed_watchdog := true, is_being_written := false,
                   last_line := 7, last_file := [97, 98] }).file
        = [97, 98] ++ List.replicate 62 0) := by
  constructor
  · exact (fault_corruption_location FAULT_USER SCB_NONE env0
      { st0 with is_being_written := true }).1 _ _ rfl (Fault_reset _ _ _ _ (by decide))
  · exact (fault_corruption_location FAULT_USER SCB_NONE env0 st0).2 7 [97, 98] 100 env0
      { st0 with should_feed_watchdog := true, is_being_written := false,
                 last_line := 7, last_file := [97, 98] } _ _
      (by decide) (by decide) (by decide) (Fault_reset _ _ _ _ (by decide))

/-- Claim C5: writing a well-formed record to flash and reading it back with
`GetFault` yields a deep-equal record, field by field — including the
full-capacity and zero-length stack-trace cases (see the witness). -/
theorem flash_roundtrip (tr : FaultRecord) (st : State) (h : wfRecord tr) :
    (GetFault (write_to_flash tr st)).cause = tr.cause ∧
    (GetFault (write_to_flash tr st)).interrupt_type = tr.interrupt_type ∧
    (GetFault (write_to_flash tr st)).stacktrace = tr.stacktrace ∧
    (GetFault (write_to_flash tr st)).regs = tr.regs ∧
    (GetFault (write_to_flash tr st)).xpsr = tr.xpsr ∧
    (GetFault (write_to_flash tr st)).is_corrupted = tr.is_corrupted ∧
    (GetFault (write_to_flash tr st)).failnum = tr.failnum ∧
    (GetFault (write_to_flash tr st)).line = tr.line ∧
    (GetFault (write_to_flash tr st)).file = tr.file := by
  obtain ⟨hs, hsb, hr, hrb, hf, hfb, hc, hi, hx, hcorr, hfn, hl1, hl2⟩ := h
  unfold GetFault write_to_flash
  dsimp only
  simp only [MAX_STRACE]
  refine ⟨serialize_getD_cause tr, serialize_getD_intr tr, ?_, ?_,
    serialize_getD_xpsr tr hs hr, ?_, serialize_getD_failnum tr hs hr, ?_, ?_⟩
  · rw [List.map_congr_left
      (fun i hmem => serialize_getD_stack tr hs i (List.mem_range.mp hmem))]
    exact map_range_getD 32 _ hs
  · rw [List.map_congr_left
      (fun i hmem => serialize_getD_regs tr hs hr i (List.mem_range.mp hmem))]
    exact map_range_getD 16 _ hr
  · rw [serialize_getD_corrupted tr hs hr]
    exact Nat.mod_eq_of_lt hcorr
  · rw [serialize_getD_line tr hs hr]
    exact decode_encode_int32 tr.line hl1 hl2
  · have hpt : ∀ i ∈ List.range 64,
        (serializeFault tr).getD (78 + i / 4) 0 / 256 ^ (i % 4) % 256 = tr.file.getD i 0 := by
      intro i hmem
      have hi64 : i < 64 := List.mem_range.mp hmem
      rw [serialize_getD_file tr hs hr hf (i / 4) (by omega)]
      exact packBytes_byte tr.file hfb (by rw [hf]) i (by omega)
    rw [List.map_congr_left hpt]
    exact map_range_getD 64 _ hf

/-- Witness for C5 at two concrete records: one with a full-capacity
(32 nonzero entries) stack trace, one with a zero-length stack trace. -/
theorem flash_roundtrip_witness :
    wfRecord recFull ∧
    (GetFault (write_to_flash recFull st0)).stacktrace = recFull.stacktrace ∧
    (GetFault (write_to_flash recFull st0)).file = recFull.file ∧
    (GetFault (write_to_flash recFull st0)).line = recFull.line ∧
    wfRecord recZero ∧
    (GetFault (write_to_flash recZero st0)).stacktrace = recZero.stacktrace ∧
    (GetFault (write_to_flash recZero st0)).cause = recZero.cause := by
  have h1 := flash_roundtrip recFull st0 (by unfold wfRecord; decide)
  have h2 := flash_roundtrip recZero st0 (by unfold wfRecord; decide)
  exact ⟨by unfold wfRecord; decide, h1.2.2.1, h1.2.2.2.2.2.2.2.2, h1.2.2.2.2.2.2.2.1,
    by unfold wfRecord; decide, h2.2.2.1, h2.1⟩

/-- Counterexample to claim C6 as stated: with the persisted counter at the
`uint32_t` maximum 4294967295, the next capture stores 0, not persisted
plus one, and the persisted count decreases — the counter is a `uint32_t`
and wraps modulo 2^32. -/
theorem failnum_wrap_cx :
    persistedFailnum stFF = 4294967295 ∧
    (Fault FAULT_USER SCB_NONE env0 stFF).record.failnum = 0 ∧
    persistedFailnum (Fault FAULT_USER SCB_NONE env0 stFF).state = 0 := by
  refine ⟨rfl, rfl, rfl⟩

/-- Claim C6 as amended: every record write stores a failnum equal to the
persisted failnum plus one reduced modulo 2^32 (and the write persists
exactly that value); consequently, as long as the counter does not wrap —
in particular for any N up to at least 255 from any persisted count below
2^32 - 255, and from a freshly programmed device (count 0) for any N below
2^32 — the count after N consecutive captures equals the count before plus
N, and the counter is non-decreasing. -/
theorem failnum_counter (causes : Nat → Nat) (envs : Nat → UnwindEnv) (st : State) (n : Nat)
    (hn : persistedFailnum st + n < 4294967296) :
    persistedFailnum (iterCapture causes envs n st) = persistedFailnum st + n ∧
    (∀ (cause last_intr : Nat) (env : UnwindEnv) (st1 st' : State) (tr : FaultRecord),
      Fault cause last_intr env st1 = FaultResult.reset st' tr →
      tr.failnum = (persistedFailnum st1 + 1) % 4294967296 ∧
      persistedFailnum st' = tr.failnum) := by
  have hsingle : ∀ (cause last_intr : Nat) (env : UnwindEnv) (st1 st' : State) (tr : FaultRecord),
      Fault cause last_intr env st1 = FaultResult.reset st' tr →
      tr.failnum = (persistedFailnum st1 + 1) % 4294967296 ∧
      persistedFailnum st' = tr.failnum := by
    intro cause last_intr env st1 st' tr h
    unfold Fault at h
    by_cases hc : last_intr = SCB_WDTEW ∧ st1.should_feed_watchdog = true
    · rw [if_pos hc] at h
      exact FaultResult.noConfusion h
    · rw [if_neg hc] at h
      injection h with h1 h2
      subst h2
      obtain ⟨hs, hr, -⟩ := faultRecordOf_lengths cause last_intr env st1
      refine ⟨rfl, ?_⟩
      rw [← h1]
      exact persistedFailnum_after _ _ hs hr
  refine ⟨?_, hsingle⟩
  induction n generalizing st with
  | zero => rfl
  | succ n ih =>
      have hstep := hsingle (causes n) SCB_NONE (envs n) st _ _
        (Fault_reset (causes n) SCB_NONE (envs n) st
          (fun hand => absurd hand.1 (by decide)))
      have hone : persistedFailnum (Fault (causes n) SCB_NONE (envs n) st).state
          = persistedFailnum st + 1 := by
        rw [Fault_reset (causes n) SCB_NONE (envs n) st
          (fun hand => absurd hand.1 (by decide))]
        simp only [FaultResult.state]
        rw [hstep.2, hstep.1, Nat.mod_eq_of_lt (by omega)]
      show persistedFailnum
        (iterCapture causes envs n ((Fault (causes n) SCB_NONE (envs n) st).state))
          = persistedFailnum st + (n + 1)
      rw [ih _ (by rw [hone]; omega), hone]
      omega

/-- Witness for the amended C6: from a freshly programmed device three
consecutive captures leave the persisted counter at 3, and a single capture
record stores counter 1. -/
theorem failnum_counter_witness :
    persistedFailnum (iterCapture (fun _ => FAULT_USER) (fun _ => env0) 3 st0) = 3 ∧
    (faultRecordOf FAULT_USER SCB_NONE env0 st0).failnum = 1 := by
  constructor
  · have h := (failnum_counter (fun _ => FAULT_USER) (fun _ => env0) st0 3 (by decide)).1
    rw [h]
    decide
  · have h := ((failnum_counter (fun _ => FAULT_USER) (fun _ => env0) st0 0 (by decide)).2
      FAULT_USER SCB_NONE env0 st0 _ _
      (Fault_reset FAULT_USER SCB_NONE env0 st0 (by decide))).1
    rw [h]
    decide

/-- Claim C7: in the asynchronous capture, if the first unwind pass records
no frames the raw program counter becomes a one-entry trace; if after the
link-register retry the trace still has exactly one entry the harvested
link register is appended as the second entry; and the resulting trace is
never empty. -/
theorem isr_trace_fallbacks (saved_lr pc : Nat) (f1 f2 : List Frame) :
    ((runBacktrace saved_lr f1 initArg).strace_len = 0 →
      (take_isr_cpu_trace saved_lr pc f1 f2 initArg).stacktrace.getD 0 0 = pc) ∧
    ((isrRetryLR saved_lr f2 (isrFallbackPC pc (runBacktrace saved_lr f1 initArg))).strace_len
        = 1 →
      (take_isr_cpu_trace saved_lr pc f1 f2 initArg).stacktrace.getD 1 0 = saved_lr ∧
      (take_isr_cpu_trace saved_lr pc f1 f2 initArg).strace_len = 2) ∧
    1 ≤ (take_isr_cpu_trace saved_lr pc f1 f2 initArg).strace_len := by
  have hl1 : (runBacktrace saved_lr f1 initArg).stacktrace.length = 32 := by
    rw [(runBacktrace_invariant saved_lr f1 initArg).1]
    rfl
  obtain ⟨p2len, p2l⟩ := isrFallbackPC_spec pc (runBacktrace saved_lr f1 initArg)
  obtain ⟨r1, r2⟩ :=
    isrRetryLR_spec saved_lr f2 (isrFallbackPC pc (runBacktrace saved_lr f1 initArg))
  refine ⟨?_, ?_, (take_isr_invariant saved_lr pc f1 f2).1⟩
  · intro h0
    have ha2 : isrFallbackPC pc (runBacktrace saved_lr f1 initArg)
        = { runBacktrace saved_lr f1 initArg with
            stacktrace := (runBacktrace saved_lr f1 initArg).stacktrace.set 0 pc,
            strace_len := (runBacktrace saved_lr f1 initArg).strace_len + 1 } := by
      unfold isrFallbackPC
      rw [if_pos h0]
    have hg0 : (isrFallbackPC pc (runBacktrace saved_lr f1 initArg)).stacktrace.getD 0 0
        = pc := by
      rw [ha2]
      exact getD_set_self _ 0 pc (by rw [hl1]; omega)
    have ha2len : (isrFallbackPC pc (runBacktrace saved_lr f1 initArg)).strace_len = 1 := by
      rw [p2len, if_pos h0]
    have hg0' : (isrRetryLR saved_lr f2
        (isrFallbackPC pc (runBacktrace saved_lr f1 initArg))).stacktrace.getD 0 0 = pc := by
      unfold isrRetryLR
      rw [if_pos ha2len]
      have hp := (runBacktrace_invariant saved_lr f2
        { isrFallbackPC pc (runBacktrace saved_lr f1 initArg) with last_ip := 0 }).2.2.2 0
        (by dsimp only; omega)
      rw [hp]
      exact hg0
    unfold take_isr_cpu_trace isrFallbackLR
    split
    · dsimp only
      rw [getD_set_other _ 1 0 _ (by decide)]
      exact hg0'
    · exact hg0'
  · intro h1
    have hlen3 : (isrRetryLR saved_lr f2
        (isrFallbackPC pc (runBacktrace saved_lr f1 initArg))).stacktrace.length = 32 := by
      by_cases hc : (isrFallbackPC pc (runBacktrace saved_lr f1 initArg)).strace_len = 1
      · rw [(r1 hc).2.2, p2l, hl1]
      · rw [r2 hc, p2l, hl1]
    unfold take_isr_cpu_trace isrFallbackLR
    rw [if_pos h1]
    dsimp only
    refine ⟨?_, by omega⟩
    apply getD_set_self
    rw [hlen3]
    omega

/-- Witness for C7 with an unwinder that yields no frames at all: the trace
becomes `[pc, saved_lr]` with length 2. -/
theorem isr_trace_fallbacks_witness :
    (take_isr_cpu_trace 7 5 [] [] initArg).stacktrace.getD 0 0 = 5 ∧
    (take_isr_cpu_trace 7 5 [] [] initArg).stacktrace.getD 1 0 = 7 ∧
    (take_isr_cpu_trace 7 5 [] [] initArg).strace_len = 2 :=
  ⟨(isr_trace_fallbacks 7 5 [] []).1 (by decide),
   ((isr_trace_fallbacks 7 5 [] []).2.1 (by decide)).1,
   ((isr_trace_fallbacks 7 5 [] []).2.1 (by decide)).2⟩

/-- Counterexample to claim C8 as stated: a synchronous capture whose
unwinder yields no frames stores an all-zero (logically empty) trace, yet
`PrintFault` still prints one entry, `0x00000000`, past the logical end. -/
theorem print_empty_trace_cx :
    (Fault FAULT_USER SCB_NONE env0 st0).record.stacktrace = List.replicate 32 0 ∧
    printedAddrs (stackWords (Fault FAULT_USER SCB_NONE env0 st0).state.flash) 0 = [0] ∧
    (stackWords (Fault FAULT_USER SCB_NONE env0 st0).state.flash).takeWhile (· ≠ 0) = [] ∧
    "0x00000000" ∈ PrintFault (Fault FAULT_USER SCB_NONE env0 st0).state := by
  refine ⟨rfl, rfl, rfl, ?_⟩
  decide

/-- Claim C8 as amended: every capture's trace has at most 32 entries and
the stored array is exactly 32 words, of which a capture's record keeps an
exact copy; `PrintFault` always prints the first stored entry and then the
following entries in order, stopping before the first zero among the later
entries — so whenever the trace is non-empty (first entry nonzero) exactly
the entries before the first zero are printed and nothing past the logical
end, while a logically empty trace still prints its single zero first
entry. -/
theorem stacktrace_bound_and_print :
    (∀ (last_intr : Nat) (env : UnwindEnv) (st : State),
      (captureTraceArg last_intr env st).strace_len ≤ MAX_STRACE ∧
      (captureTraceArg last_intr env st).stacktrace.length = MAX_STRACE) ∧
    (∀ (tr : FaultRecord) (st : State), tr.stacktrace.length = 32 →
      stackWords (write_to_flash tr st).flash = tr.stacktrace) ∧
    (∀ s : List Nat, s.length = 32 →
      printedAddrs s 0 = s.getD 0 0 :: (s.drop 1).takeWhile (· ≠ 0) ∧
      (s.getD 0 0 ≠ 0 → printedAddrs s 0 = s.takeWhile (· ≠ 0))) := by
  refine ⟨?_, ?_, ?_⟩
  · intro last_intr env st
    unfold captureTraceArg
    split
    · obtain ⟨l, -, b, -⟩ := runBacktrace_invariant st.saved_lr env.syncFrames initArg
      have hmax : max initArg.strace_len (MAX_STRACE - 1) = 31 := by decide
      rw [hmax] at b
      constructor
      · simp only [MAX_STRACE]
        omega
      · rw [l]
        rfl
    · obtain ⟨-, h2, h3⟩ := take_isr_invariant st.saved_lr (st.p_main_r.getD 15 0)
        env.isrFrames1 env.isrFrames2
      exact ⟨h2, h3⟩
  · intro tr st hs
    exact stackWords_serialize tr hs
  · intro s hs
    exact ⟨printedAddrs_spec s hs, printedAddrs_head_ne s hs⟩

/-- Witness for the amended C8: a two-entry trace followed by zeros prints
exactly its two entries, and a concrete capture trace is bounded by 32. -/
theorem stacktrace_bound_and_print_witness :
    (captureTraceArg SCB_NONE env0 st0).strace_len ≤ MAX_STRACE ∧
    stackWords (write_to_flash recFull st0).flash = recFull.stacktrace ∧
    printedAddrs (4096 :: 4097 :: List.replicate 30 0) 0 = [4096, 4097] := by
  refine ⟨(stacktrace_bound_and_print.1 SCB_NONE env0 st0).1,
    stacktrace_bound_and_print.2.1 recFull st0 (by decide), ?_⟩
  have h := (stacktrace_bound_and_print.2.2 (4096 :: 4097 :: List.replicate 30 0)
    (by decide)).2 (by decide)
  rw [h]
  decide

/-- Claim C9: in an exception-context capture the record's register snapshot
merges the two sources — r0-r3 and r12 from the exception entry frame,
r4-r11 untouched from the entry stub's capture, SP = frame address plus
eight words, LR and PC from the frame-saved slots, xPSR from the frame —
while a synchronous capture (interrupt identifier zero) leaves the whole
snapshot and xPSR zeroed: snapshot and interrupt context are jointly valid
or jointly absent. -/
theorem register_snapshot_sources (fault_args : List Nat) (addr : Nat) (cause last_intr : Nat)
    (env : UnwindEnv) (st : State) (hp : st.p_main_r.length = 16)
    (hi : last_intr ≠ SCB_NONE)
    (hnf : ¬(last_intr = SCB_WDTEW ∧ st.should_feed_watchdog = true)) :
    (∃ st' tr,
      Fault cause last_intr env (fill_phase2_vrs fault_args addr st)
        = FaultResult.reset st' tr ∧
      tr.interrupt_type = last_intr ∧
      tr.regs.getD 0 0 = fault_args.getD 0 0 ∧
      tr.regs.getD 1 0 = fault_args.getD 1 0 ∧
      tr.regs.getD 2 0 = fault_args.getD 2 0 ∧
      tr.regs.getD 3 0 = fault_args.getD 3 0 ∧
      tr.regs.getD 12 0 = fault_args.getD 4 0 ∧
      (∀ j, 4 ≤ j → j ≤ 11 → tr.regs.getD j 0 = st.p_main_r.getD j 0) ∧
      tr.regs.getD 13 0 = addr + 32 ∧
      tr.regs.getD 14 0 = fault_args.getD 5 0 ∧
      tr.regs.getD 15 0 = fault_args.getD 6 0 ∧
      tr.xpsr = fault_args.getD 7 0) ∧
    (∀ (cause2 : Nat) (env2 : UnwindEnv) (st2 st' : State) (tr : FaultRecord),
      Fault cause2 SCB_NONE env2 st2 = FaultResult.reset st' tr →
      tr.regs = List.replicate 16 0 ∧ tr.xpsr = 0 ∧ tr.interrupt_type = SCB_NONE) := by
  constructor
  · have hfeed : ¬(last_intr = SCB_WDTEW ∧
        (fill_phase2_vrs fault_args addr st).should_feed_watchdog = true) := by
      intro hand
      exact hnf ⟨hand.1, hand.2⟩
    have hregs : (faultRecordOf cause last_intr env (fill_phase2_vrs fault_args addr st)).regs
        = ((List.range 16).map
            (fun i => (fill_phase2_vrs fault_args addr st).p_main_r.getD i 0)).set 14
            (fill_phase2_vrs fault_args addr st).saved_lr := by
      unfold faultRecordOf
      dsimp only
      rw [if_neg hi]
    have hpm : ∀ j, j ≠ 14 → j < 16 →
        (faultRecordOf cause last_intr env
          (fill_phase2_vrs fault_args addr st)).regs.getD j 0
          = (fill_phase2_vrs fault_args addr st).p_main_r.getD j 0 := by
      intro j hj hj16
      rw [hregs, getD_set_other _ 14 j _ (by omega), getD_map_range 16 j _ hj16]
    refine ⟨_, _,
      Fault_reset cause last_intr env (fill_phase2_vrs fault_args addr st) hfeed,
      rfl, ?_, ?_, ?_, ?_, ?_, ?_, ?_, ?_, ?_, ?_⟩
    · rw [hpm 0 (by decide) (by decide)]
      unfold fill_phase2_vrs
      dsimp only
      rw [getD_set_other _ 13 0 _ (by decide), getD_set_other _ 15 0 _ (by decide),
        getD_set_other _ 14 0 _ (by decide), getD_set_other _ 12 0 _ (by decide),
        getD_set_other _ 3 0 _ (by decide), getD_set_other _ 2 0 _ (by decide),
        getD_set_other _ 1 0 _ (by decide)]
      exact getD_set_self _ 0 _ (by omega)
    · rw [hpm 1 (by decide) (by decide)]
      unfold fill_phase2_vrs
      dsimp only
      rw [getD_set_other _ 13 1 _ (by decide), getD_set_other _ 15 1 _ (by decide),
        getD_set_other _ 14 1 _ (by decide), getD_set_other _ 12 1 _ (by decide),
        getD_set_other _ 3 1 _ (by decide), getD_set_other _ 2 1 _ (by decide)]
      exact getD_set_self _ 1 _ (by simp [List.length_set, hp])
    · rw [hpm 2 (by decide) (by decide)]
      unfold fill_phase2_vrs
      dsimp only
      rw [getD_set_other _ 13 2 _ (by decide), getD_set_other _ 15 2 _ (by decide),
        getD_set_other _ 14 2 _ (by decide), getD_set_other _ 12 2 _ (by decide),
        getD_set_other _ 3 2 _ (by decide)]
      exact getD_set_self _ 2 _ (by simp [List.length_set, hp])
    · rw [hpm 3 (by decide) (by decide)]
      unfold fill_phase2_vrs
      dsimp only
      rw [getD_set_other _ 13 3 _ (by decide), getD_set_other _ 15 3 _ (by decide),
        getD_set_other _ 14 3 _ (by decide), getD_set_other _ 12 3 _ (by decide)]
      exact getD_set_self _ 3 _ (by simp [List.length_set, hp])
    · rw [hpm 12 (by decide) (by decide)]
      unfold fill_phase2_vrs
      dsimp only
      rw [getD_set_other _ 13 12 _ (by decide), getD_set_other _ 15 12 _ (by decide),
        getD_set_other _ 14 12 _ (by decide)]
      exact getD_set_self _ 12 _ (by simp [List.length_set, hp])
    · intro j h4 h11
      rw [hpm j (by omega) (by omega)]
      unfold fill_phase2_vrs
      dsimp only
      rw [getD_set_other _ 13 j _ (by omega), getD_set_other _ 15 j _ (by omega),
        getD_set_other _ 14 j _ (by omega), getD_set_other _ 12 j _ (by omega),
        getD_set_other _ 3 j _ (by omega), getD_set_other _ 2 j _ (by omega),
        getD_set_other _ 1 j _ (by omega), getD_set_other _ 0 j _ (by omega)]
    · rw [hpm 13 (by decide) (by decide)]
      unfold fill_phase2_vrs
      dsimp only
      exact getD_set_self _ 13 _ (by simp [List.length_set, hp])
    · rw [hregs, getD_set_self _ 14 _ (by simp)]
      rfl
    · rw [hpm 15 (by decide) (by decide)]
      unfold fill_phase2_vrs
      dsimp only
      rw [getD_set_other _ 13 15 _ (by decide)]
      exact getD_set_self _ 15 _ (by simp [List.length_set, hp])
    · unfold faultRecordOf
      dsimp only
      rw [if_neg hi]
      rfl
  · intro cause2 env2 st2 st' tr h
    unfold Fault at h
    by_cases hc : SCB_NONE = SCB_WDTEW ∧ st2.should_feed_watchdog = true
    · exact absurd hc.1 (by decide)
    · rw [if_neg hc] at h
      injection h with h1 h2
      subst h2
      unfold faultRecordOf
      dsimp only
      rw [if_pos rfl, if_pos rfl]
      exact ⟨rfl, rfl, rfl⟩

/-- Witness for C9: with frame `[1,2,3,4,5,6,7,8]` at address 100 and stub
values `50+i`, the captured snapshot has r0 = 1, r12 = 5, r5 = 55 (stub),
SP = 132, LR = 6, PC = 7, xPSR = 8; a synchronous capture leaves the
snapshot zeroed. -/
theorem register_snapshot_sources_witness :
    (Fault FAULT_UNKNOWN SCB_HARDFAULT env0
      (fill_phase2_vrs [1, 2, 3, 4, 5, 6, 7, 8] 100 stStub)).record.regs.getD 0 0 = 1 ∧
    (Fault FAULT_UNKNOWN SCB_HARDFAULT env0
      (fill_phase2_vrs [1, 2, 3, 4, 5, 6, 7, 8] 100 stStub)).record.regs.getD 12 0 = 5 ∧
    (Fault FAULT_UNKNOWN SCB_HARDFAULT env0
      (fill_phase2_vrs [1, 2, 3, 4, 5, 6, 7, 8] 100 stStub)).record.regs.getD 5 0 = 55 ∧
    (Fault FAULT_UNKNOWN SCB_HARDFAULT env0
      (fill_phase2_vrs [1, 2, 3, 4, 5, 6, 7, 8] 100 stStub)).record.regs.getD 13 0 = 132 ∧
    (Fault FAULT_UNKNOWN SCB_HARDFAULT env0
      (fill_phase2_vrs [1, 2, 3, 4, 5, 6, 7, 8] 100 stStub)).record.regs.getD 14 0 = 6 ∧
    (Fault FAULT_UNKNOWN SCB_HARDFAULT env0
      (fill_phase2_vrs [1, 2, 3, 4, 5, 6, 7, 8] 100 stStub)).record.regs.getD 15 0 = 7 ∧
    (Fault FAULT_UNKNOWN SCB_HARDFAULT env0
      (fill_phase2_vrs [1, 2, 3, 4, 5, 6, 7, 8] 100 stStub)).record.xpsr = 8 ∧
    (Fault FAULT_USER SCB_NONE env0 st0).record.regs = List.replicate 16 0 := by
  obtain ⟨⟨st', tr, heq, hintr, h0, h1, h2, h3, h12, hmid, h13, h14, h15, hx⟩, hsync⟩ :=
    register_snapshot_sources [1, 2, 3, 4, 5, 6, 7, 8] 100 FAULT_UNKNOWN SCB_HARDFAULT env0
      stStub (by decide) (by decide) (by decide)
  rw [heq]
  have heq2 := Fault_reset FAULT_USER SCB_NONE env0 st0 (by decide)
  rw [heq2]
  exact ⟨h0, h12, hmid 5 (by decide) (by decide), h13, h14, h15, hx,
    (hsync FAULT_USER env0 st0 _ _ heq2).1⟩
